import Mathlib

/-!
Verification development for the Greeter Server in src/app/app.py.

The program is a minimal Python HTTP server built on
http.server.BaseHTTPRequestHandler.  This file gives a shallow embedding
of its behavior: the request handler, the logging callback, the PORT
resolution at module load, and the startup path of run_server, together
with theorems settling the specification claims.
-/

namespace SlsaApp

/-- An HTTP request as seen by the handler: method (the command), the
request path and the request headers.  The body is irrelevant to this
program and is not modeled. -/
structure Request where
  method : String
  path : String
  headers : List (String × String)
deriving DecidableEq, Repr

/-- An HTTP response: status code, the application-level headers that the
handler itself sends, and the body as a list of byte values.  Headers the
library adds on its own (Server, Date) are outside the model since they
depend on wall-clock time. -/
structure Response where
  status : Nat
  headers : List (String × String)
  body : List Nat
deriving DecidableEq, Repr

/-- The constant greeting written by do_GET in src/app/app.py, as a
string.  In the source it is the bytes literal
b"Hello from secure CI/CD with SLSA + Cosign (Python Edition)!\n". -/
def helloMessage : String :=
  "Hello from secure CI/CD with SLSA + Cosign (Python Edition)!\n"

/-- The greeting as the byte string the handler writes to wfile.  Every
character of the message is ASCII, so the UTF-8 bytes are exactly the
character codes. -/
def helloBody : List Nat := helloMessage.data.map Char.toNat

/-- Model of SimpleHandler.do_GET: send_response(200),
send_header("Content-Type", "text/plain"), end_headers, then write the
fixed greeting bytes.  The request is ignored entirely. -/
def do_GET (_r : Request) : Response :=
  { status := 200
    headers := [("Content-Type", "text/plain")]
    body := helloBody }

/-- Dispatch performed by BaseHTTPRequestHandler.handle_one_request in the
Python standard library: it looks up a method named do_ followed by the
request command on the handler instance and, when no such method exists,
replies with send_error(501, Unsupported method).  SimpleHandler defines
only do_GET, so every non-GET method takes the 501 branch.  The 501 reply
carries the library Content-Type for error pages; its HTML body is not
modeled (no claim concerns it), only the status code matters here. -/
def handleRequest (r : Request) : Response :=
  if r.method = "GET" then do_GET r
  else
    { status := 501
      headers := [("Content-Type", "text/html;charset=utf-8")]
      body := [] }

/-- Model of SimpleHandler.log_message: a single print call writes one
line to standard output, formatted as the client address string, the text
" - ", then the request summary produced by the library format string.
The returned list holds the lines written by one call. -/
def log_message (addressString : String) (formatted : String) : List String :=
  [addressString ++ " - " ++ formatted]

/-! PORT resolution.  The source line is
PORT = int(os.environ.get("PORT", 8080)).
An absent variable yields the integer default 8080.  A present value is a
string and goes through the Python int constructor, which strips
whitespace, accepts one optional sign, then requires a nonempty run of
decimal digits in which single underscores may separate digits.  Failure
raises ValueError, modeled as none; nothing in the source catches it. -/

/-- Whether a character is an ASCII decimal digit, by code point. -/
def isDigitChar (c : Char) : Bool :=
  48 ≤ c.toNat && c.toNat ≤ 57

/-- Numeric value of an ASCII digit character. -/
def digitVal (c : Char) : Nat := c.toNat - 48

/-- Whitespace characters stripped by the Python int constructor (space,
tab, newline, carriage return, vertical tab, form feed). -/
def isPySpace (c : Char) : Bool :=
  c.toNat == 32 || c.toNat == 9 || c.toNat == 10 ||
  c.toNat == 13 || c.toNat == 11 || c.toNat == 12

/-- Drop leading whitespace from a character list. -/
def stripLeft : List Char → List Char
  | [] => []
  | c :: cs => if isPySpace c then stripLeft cs else c :: cs

/-- Strip whitespace from both ends, as the int constructor does before
parsing. -/
def strip (cs : List Char) : List Char :=
  (stripLeft (stripLeft cs).reverse).reverse

/-- Parse the digit run after the first digit, whose value is in acc.
A single underscore may stand between two digits; a trailing, doubled or
otherwise misplaced underscore is an error, as for Python int. -/
def pyDigits (acc : Nat) : List Char → Option Nat
  | [] => some acc
  | c :: cs =>
    if isDigitChar c then pyDigits (10 * acc + digitVal c) cs
    else if c = '_' then
      match cs with
      | [] => none
      | d :: ds =>
        if isDigitChar d then pyDigits (10 * acc + digitVal d) ds else none
    else none

/-- Parse a stripped character list as the Python int constructor does:
one optional sign directly followed by the digit run.  An empty list, a
bare sign, or any other leading character is a ValueError. -/
def pyIntOfChars : List Char → Option Int
  | [] => none
  | c :: cs =>
    if c = '+' then
      match cs with
      | [] => none
      | d :: ds =>
        if isDigitChar d then (pyDigits (digitVal d) ds).map Int.ofNat else none
    else if c = '-' then
      match cs with
      | [] => none
      | d :: ds =>
        if isDigitChar d then
          (pyDigits (digitVal d) ds).map (fun n => -(n : Int))
        else none
    else if isDigitChar c then (pyDigits (digitVal c) cs).map Int.ofNat
    else none

/-- Model of the Python int constructor on a string: strip whitespace,
then parse sign and digits; none models an uncaught ValueError. -/
def pyInt (s : String) : Option Int :=
  pyIntOfChars (strip s.data)

/-- Model of PORT = int(os.environ.get("PORT", 8080)).  The environment
variable is an optional string; when it is absent the default integer
8080 is used directly, otherwise the string is parsed.  none models a
ValueError escaping at module load. -/
def resolvePort (env : Option String) : Option Int :=
  match env with
  | none => some 8080
  | some s => pyInt s

/-- Result of starting the process.  parseCrash: an uncaught ValueError
while evaluating PORT at module load, before any socket exists.
bindCrash: an uncaught exception raised by the HTTPServer constructor
while binding the socket.  serving p: the socket is bound on port p and
serve_forever blocks accepting connections. -/
inductive StartResult where
  | parseCrash : StartResult
  | bindCrash : StartResult
  | serving : Int → StartResult
deriving DecidableEq, Repr

/-- Model of run_server: server_address is the wildcard host with the
resolved port; the HTTPServer constructor raises when the port is outside
the TCP range or already bound on the host, and run_server contains no
try block, so such a failure propagates and kills the process; on success
serve_forever runs.  boundPorts lists the ports already bound on the
host. -/
def run_server (port : Int) (boundPorts : List Int) : StartResult :=
  if port < 0 ∨ 65535 < port ∨ port ∈ boundPorts then .bindCrash
  else .serving port

/-- Whole-process startup, the module top level of app.py: PORT is
computed once from the environment, then the main guard calls run_server.
A ValueError from int parsing happens before run_server is entered, so no
socket is created in that case. -/
def startup (env : Option String) (boundPorts : List Int) : StartResult :=
  match resolvePort env with
  | none => .parseCrash
  | some p => run_server p boundPorts

/-- Exit status of the process for a start result: an uncaught Python
exception terminates the interpreter with status 1; a serving process has
not exited. -/
def exitCode : StartResult → Option Nat
  | .parseCrash => some 1
  | .bindCrash => some 1
  | .serving _ => none

/-- Process state while serving: the resolved port (the module-level PORT
constant) and the log lines written to standard output so far. -/
structure ProcState where
  port : Int
  log : List String
deriving DecidableEq, Repr

/-- One accepted connection inside serve_forever: the handler computes
the response for the request and log_message appends one line to standard
output.  addr and msg are the client address string and the formatted
request summary supplied by the library.  No statement in the handler
assigns to PORT. -/
def handleConn (st : ProcState) (r : Request) (addr msg : String) :
    ProcState × Response :=
  ({ st with log := st.log ++ log_message addr msg }, handleRequest r)

/-- The serving loop over a finite trace of accepted connections. -/
def serveAll (st : ProcState) : List (Request × String × String) → ProcState
  | [] => st
  | (r, addr, msg) :: rest => serveAll (handleConn st r addr msg).1 rest

/-- Decimal digit string of a natural number, most significant digit
first; used to state claims about numeric values of the PORT variable. -/
def decimalDigits : Nat → List Char
  | 0 => []
  | n + 1 =>
    decimalDigits ((n + 1) / 10) ++ [Char.ofNat (48 + (n + 1) % 10)]
decreasing_by exact Nat.div_lt_self (Nat.succ_pos n) (by decide)

/-- The usual decimal string of a natural number. -/
def decimalRepr (n : Nat) : String :=
  if n = 0 then "0" else String.mk (decimalDigits n)

/-- Accumulator step of decimal evaluation: append one digit on the
right.  Used to state lemmas about the digit run of pyDigits. -/
def digitStep (a : Nat) (c : Char) : Nat := 10 * a + digitVal c

/-! Helper lemmas about the embedded definitions. -/

theorem data_append (a b : String) : (a ++ b).data = a.data ++ b.data := by
  cases a; cases b; rfl

theorem not_pySpace_of_digit {c : Char} (h : isDigitChar c = true) :
    isPySpace c = false := by
  simp only [isDigitChar, Bool.and_eq_true, decide_eq_true_eq] at h
  simp only [isPySpace, Bool.or_eq_false_iff, beq_eq_false_iff_ne, ne_eq]
  omega

theorem stripLeft_eq_of_digits {cs : List Char}
    (h : ∀ c ∈ cs, isDigitChar c = true) : stripLeft cs = cs := by
  cases cs with
  | nil => rfl
  | cons c cs => simp [stripLeft, not_pySpace_of_digit (h c (by simp))]

theorem strip_eq_of_digits {cs : List Char}
    (h : ∀ c ∈ cs, isDigitChar c = true) : strip cs = cs := by
  have h₂ : ∀ c ∈ cs.reverse, isDigitChar c = true := by
    intro c hc
    exact h c (List.mem_reverse.mp hc)
  rw [strip, stripLeft_eq_of_digits h, stripLeft_eq_of_digits h₂,
    List.reverse_reverse]

theorem pyDigits_eq_foldl (cs : List Char) :
    ∀ acc : Nat, (∀ c ∈ cs, isDigitChar c = true) →
      pyDigits acc cs = some (cs.foldl digitStep acc) := by
  induction cs with
  | nil => intro acc _; rfl
  | cons c cs ih =>
    intro acc h
    have hc : isDigitChar c = true := h c (by simp)
    have hrest : ∀ d ∈ cs, isDigitChar d = true := fun d hd => h d (by simp [hd])
    have step : pyDigits acc (c :: cs) = pyDigits (10 * acc + digitVal c) cs := by
      rw [pyDigits.eq_def]
      simp [hc]
    rw [step, List.foldl_cons]
    have hds : digitStep acc c = 10 * acc + digitVal c := rfl
    rw [hds]
    exact ih _ hrest

theorem pyIntOfChars_digits {c : Char} {cs : List Char}
    (h : ∀ d ∈ c :: cs, isDigitChar d = true) :
    pyIntOfChars (c :: cs) =
      some (Int.ofNat ((c :: cs).foldl digitStep 0)) := by
  have hc : isDigitChar c = true := h c (by simp)
  have hplus : ¬ c = '+' := by
    intro he
    rw [he] at hc
    exact absurd hc (by decide)
  have hminus : ¬ c = '-' := by
    intro he
    rw [he] at hc
    exact absurd hc (by decide)
  have hrest : ∀ d ∈ cs, isDigitChar d = true := fun d hd => h d (by simp [hd])
  have step : pyIntOfChars (c :: cs) = (pyDigits (digitVal c) cs).map Int.ofNat := by
    rw [pyIntOfChars.eq_def]
    simp [hplus, hminus, hc]
  rw [step, pyDigits_eq_foldl cs (digitVal c) hrest]
  simp [digitStep]

theorem isDigitChar_ofNat_digit {r : Nat} (h : r < 10) :
    isDigitChar (Char.ofNat (48 + r)) = true := by
  interval_cases r <;> decide

theorem digitVal_ofNat_digit {r : Nat} (h : r < 10) :
    digitVal (Char.ofNat (48 + r)) = r := by
  interval_cases r <;> decide

theorem decimalDigits_all_digits :
    ∀ n : Nat, ∀ c ∈ decimalDigits n, isDigitChar c = true := by
  intro n
  induction n using Nat.strong_induction_on with
  | _ n ih =>
    cases n with
    | zero => intro c hc; simp [decimalDigits] at hc
    | succ m =>
      intro c hc
      simp only [decimalDigits, List.mem_append, List.mem_singleton] at hc
      rcases hc with h₁ | h₂
      · exact ih ((m + 1) / 10) (Nat.div_lt_self (Nat.succ_pos m) (by decide)) c h₁
      · rw [h₂]
        exact isDigitChar_ofNat_digit (Nat.mod_lt _ (by decide))

theorem foldl_decimalDigits :
    ∀ n acc : Nat,
      (decimalDigits n).foldl digitStep acc =
        acc * 10 ^ (decimalDigits n).length + n := by
  intro n
  induction n using Nat.strong_induction_on with
  | _ n ih =>
    cases n with
    | zero => intro acc; simp [decimalDigits]
    | succ m =>
      intro acc
      simp only [decimalDigits, List.foldl_append, List.length_append,
        List.foldl_cons, List.foldl_nil, List.length_cons, List.length_nil]
      rw [ih ((m + 1) / 10) (Nat.div_lt_self (Nat.succ_pos m) (by decide)) acc]
      simp only [digitStep, digitVal_ofNat_digit (Nat.mod_lt (m + 1) (by decide))]
      rw [pow_succ, ← mul_assoc]
      generalize acc * 10 ^ (decimalDigits ((m + 1) / 10)).length = A
      omega

theorem decimalDigits_ne_nil {n : Nat} (h : 0 < n) : decimalDigits n ≠ [] := by
  cases n with
  | zero => exact absurd h (by decide)
  | succ m => simp [decimalDigits]

theorem pyInt_decimalRepr (n : Nat) : pyInt (decimalRepr n) = some (n : Int) := by
  by_cases h0 : n = 0
  · rw [h0]; decide
  · rw [decimalRepr, if_neg h0, pyInt]
    have hd := decimalDigits_all_digits n
    have hne : decimalDigits n ≠ [] :=
      decimalDigits_ne_nil (Nat.pos_of_ne_zero h0)
    have hdata : (String.mk (decimalDigits n)).data = decimalDigits n := rfl
    rw [hdata, strip_eq_of_digits hd]
    obtain ⟨c, cs, hcons⟩ := List.exists_cons_of_ne_nil hne
    rw [hcons, pyIntOfChars_digits (by rw [← hcons]; exact hd)]
    have hval : (c :: cs).foldl digitStep 0 = n := by
      rw [← hcons]
      have := foldl_decimalDigits n 0
      simpa using this
    rw [hval]
    rfl

theorem serveAll_port (st : ProcState)
    (conns : List (Request × String × String)) :
    (serveAll st conns).port = st.port := by
  induction conns generalizing st with
  | nil => rfl
  | cons c rest ih =>
    obtain ⟨r, addr, msg⟩ := c
    rw [serveAll, ih]
    rfl

/-! Claim theorems. -/

/-- C1: every GET request handled by the server gets status 200, a
Content-Type header equal to text/plain, and a body exactly equal to the
fixed greeting bytes, independent of the request path and headers. -/
theorem get_response_fixed (r : Request) (h : r.method = "GET") :
    (handleRequest r).status = 200 ∧
    ("Content-Type", "text/plain") ∈ (handleRequest r).headers ∧
    (handleRequest r).body = helloBody := by
  simp [handleRequest, h, do_GET]

/-- Witness for C1: a concrete GET request with a nonempty path and an
Accept header receives the fixed response. -/
theorem get_response_fixed_witness :
    (handleRequest ⟨"GET", "/any/path", [("Accept", "application/json")]⟩).status = 200 ∧
    ("Content-Type", "text/plain") ∈
      (handleRequest ⟨"GET", "/any/path", [("Accept", "application/json")]⟩).headers ∧
    (handleRequest ⟨"GET", "/any/path", [("Accept", "application/json")]⟩).body = helloBody :=
  get_response_fixed ⟨"GET", "/any/path", [("Accept", "application/json")]⟩ rfl

/-- C2 counterexample: a POST request does not get status 200; the
library dispatch answers 501 because SimpleHandler defines no do_POST
method, so it is false that every method produces the fixed 200
response. -/
theorem post_not_200 :
    (handleRequest ⟨"POST", "/", []⟩).status = 501 ∧
    ¬ (handleRequest ⟨"POST", "/", []⟩).status = 200 := by
  refine ⟨rfl, ?_⟩
  decide

/-- C2 (amended): requests are dispatched on the method name: a GET for
any path gets status 200 with the exact fixed body, while a request with
any other method receives the 501 Unsupported method reply produced by
the library dispatch. -/
theorem handleRequest_dispatch (r : Request) :
    (r.method = "GET" →
      (handleRequest r).status = 200 ∧ (handleRequest r).body = helloBody) ∧
    (r.method ≠ "GET" → (handleRequest r).status = 501) := by
  constructor
  · intro h
    simp [handleRequest, h, do_GET]
  · intro h
    simp [handleRequest, h]

/-- Witness for C2 (amended): both branches of the dispatch at concrete
requests. -/
theorem handleRequest_dispatch_witness :
    ((handleRequest ⟨"GET", "/", []⟩).status = 200 ∧
      (handleRequest ⟨"GET", "/", []⟩).body = helloBody) ∧
    (handleRequest ⟨"DELETE", "/x", []⟩).status = 501 :=
  ⟨(handleRequest_dispatch ⟨"GET", "/", []⟩).1 rfl,
   (handleRequest_dispatch ⟨"DELETE", "/x", []⟩).2 (by decide)⟩

/-- C3: any two GET requests, however they differ in path or headers,
produce identical responses: same status, same headers, same body. -/
theorem response_noninterference (r₁ r₂ : Request)
    (h₁ : r₁.method = "GET") (h₂ : r₂.method = "GET") :
    handleRequest r₁ = handleRequest r₂ := by
  simp [handleRequest, h₁, h₂, do_GET]

/-- Witness for C3: two GET requests with different paths and different
content negotiation headers get the same response. -/
theorem response_noninterference_witness :
    handleRequest ⟨"GET", "/a", [("Accept", "text/html")]⟩ =
      handleRequest ⟨"GET", "/b", []⟩ :=
  response_noninterference ⟨"GET", "/a", [("Accept", "text/html")]⟩
    ⟨"GET", "/b", []⟩ rfl rfl

/-- C4: with the PORT variable absent, the resolved port is 8080 and
startup binds 8080 whenever that port is free on the host. -/
theorem default_port_8080 :
    resolvePort none = some 8080 ∧
    ∀ bound : List Int, (8080 : Int) ∉ bound →
      startup none bound = StartResult.serving 8080 := by
  refine ⟨rfl, ?_⟩
  intro bound h
  have hc : ¬ ((8080 : Int) < 0 ∨ 65535 < (8080 : Int) ∨ (8080 : Int) ∈ bound) := by
    push_neg
    exact ⟨by decide, by decide, h⟩
  simp only [startup, resolvePort, run_server, if_neg hc]

/-- Witness for C4: on a host with no bound port, startup with an absent
PORT variable serves on 8080. -/
theorem default_port_8080_witness :
    startup none [] = StartResult.serving 8080 :=
  default_port_8080.2 [] (by decide)

/-- C5: when the PORT variable holds the decimal string of a valid free
port n, resolution yields n and startup binds n instead of the default
8080. -/
theorem env_port_overrides (n : Nat) (bound : List Int)
    (hfree : (n : Int) ∉ bound) (hvalid : n ≤ 65535) :
    resolvePort (some (decimalRepr n)) = some (n : Int) ∧
    startup (some (decimalRepr n)) bound = StartResult.serving (n : Int) := by
  have hp : resolvePort (some (decimalRepr n)) = some (n : Int) :=
    pyInt_decimalRepr n
  refine ⟨hp, ?_⟩
  have hc : ¬ ((n : Int) < 0 ∨ 65535 < (n : Int) ∨ (n : Int) ∈ bound) := by
    push_neg
    exact ⟨Int.natCast_nonneg n, by exact_mod_cast hvalid, hfree⟩
  simp only [startup, hp, run_server, if_neg hc]

/-- Witness for C5: PORT set to the decimal string 9090 on a host where
8080 is bound but 9090 is free: the server binds 9090, not 8080. -/
theorem env_port_overrides_witness :
    resolvePort (some (decimalRepr 9090)) = some (9090 : Int) ∧
    startup (some (decimalRepr 9090)) [8080] = StartResult.serving 9090 :=
  env_port_overrides 9090 [8080] (by decide) (by decide)

/-- C6: a present but unparsable PORT value makes startup crash at module
load with the parse failure, before any socket is bound, whatever the
host state; there is no fallback to a default. -/
theorem invalid_port_crashes (s : String) (bound : List Int)
    (h : pyInt s = none) :
    startup (some s) bound = StartResult.parseCrash := by
  simp only [startup, resolvePort, h]

/-- Witness for C6: the non-numeric value abc crashes startup. -/
theorem invalid_port_crashes_witness :
    startup (some "abc") [] = StartResult.parseCrash :=
  invalid_port_crashes "abc" [] (by decide)

/-- C7: when the resolved port is already bound, or is not a bindable TCP
port at all, run_server ends in the unhandled bind failure: the process
exits with status 1 and the serving loop on that port is never reached,
with no retry path in the model. -/
theorem bound_port_fatal (port : Int) (bound : List Int)
    (h : port ∈ bound ∨ port < 0 ∨ 65535 < port) :
    run_server port bound = StartResult.bindCrash ∧
    exitCode (run_server port bound) = some 1 ∧
    run_server port bound ≠ StartResult.serving port := by
  have hc : port < 0 ∨ 65535 < port ∨ port ∈ bound := by tauto
  simp only [run_server, if_pos hc, exitCode]
  exact ⟨trivial, trivial, fun hp => nomatch hp⟩

/-- Witness for C7: a second instance started on an already-bound 8080
fails fatally. -/
theorem bound_port_fatal_witness :
    run_server 8080 [8080] = StartResult.bindCrash ∧
    exitCode (run_server 8080 [8080]) = some 1 ∧
    run_server 8080 [8080] ≠ StartResult.serving 8080 :=
  bound_port_fatal 8080 [8080] (by decide)

/-- C8: each handled request writes exactly one line to standard output,
and that line is the client address string followed by the request
summary. -/
theorem log_one_line (addr msg : String) :
    ∃ line : String, log_message addr msg = [line] ∧
      line.data = addr.data ++ (" - ").data ++ msg.data := by
  refine ⟨addr ++ " - " ++ msg, rfl, ?_⟩
  rw [data_append, data_append]

/-- C9: the port is read once into the module constant at startup and no
operation changes it: a single connection leaves it unchanged, and so
does any finite trace of connections. -/
theorem port_immutable (st : ProcState)
    (conns : List (Request × String × String)) :
    (serveAll st conns).port = st.port ∧
    ∀ (r : Request) (addr msg : String),
      (handleConn st r addr msg).1.port = st.port :=
  ⟨serveAll_port st conns, fun _ _ _ => rfl⟩

/-- C10: an empty PORT value is not the same as an absent one: the empty
string fails int parsing and crashes startup on any host, while the 8080
default applies exactly when the variable is absent. -/
theorem empty_port_crashes :
    (∀ bound : List Int, startup (some "") bound = StartResult.parseCrash) ∧
    resolvePort (some "") = none ∧
    resolvePort none = some 8080 := by
  refine ⟨?_, rfl, rfl⟩
  intro bound
  simp only [startup, resolvePort, show pyInt "" = none from rfl]

end SlsaApp
